import Mathlib

/-!
Shallow embedding of the client synchronization core of the Aegis dashboard
(src/frontend/src/App.jsx and src/frontend/src/api.js).

JavaScript values that may be `undefined`/`null` or a string are modelled as
`Option String` (`none` = undefined/null); the only falsy string is `""`.
Backend interactions are modelled by passing the transport outcome of each
`fetch` explicitly: `FetchOutcome` distinguishes a rejected `fetch` call
(unreachable backend), a body that fails to parse in `response.json()`, and a
parsed value.  The React state hooks of `App` are gathered into `AppState`,
and each handler becomes a pure function from the pre-state and the backend
outcomes to the post-state, paired with how many backend requests it issued.
-/

/-- Outcome of one `fetch(...)` + `response.json()` round trip:
`netError` = the `fetch` promise rejected (backend unreachable),
`parseError` = `response.json()` rejected (malformed body),
`ok v` = a parsed value `v`. -/
inductive FetchOutcome (α : Type) where
  | netError : FetchOutcome α
  | parseError : FetchOutcome α
  | ok : α → FetchOutcome α
  deriving Repr, DecidableEq

/-- A failing transport interaction (either failure arm of `FetchOutcome`). -/
def FetchOutcome.isFailure {α : Type} : FetchOutcome α → Bool
  | .netError => true
  | .parseError => true
  | .ok _ => false

/-- One device record as consumed by `App.jsx`.  Fields the backend may omit
(or send as empty strings) are `Option String`; `risk_score` is a plain
number; `latency` and `open_ports` may be absent. -/
structure Device where
  mac : String
  ip : String
  hostname : Option String
  vendor : Option String
  nickname : Option String
  name : Option String
  os_type : Option String
  device_type : Option String
  risk_score : Int
  open_ports : Option Nat
  latency : Option Nat
  isBlocked : Bool
  is_blocked : Bool
  harmful : Bool
  deriving Repr, DecidableEq

/-- One audit-log entry (`App.jsx` renders `id`, `time`, `event`, `type`). -/
structure LogEntry where
  id : Nat
  time : String
  event : String
  type : String
  deriving Repr, DecidableEq

/-- JavaScript truthiness test on an optional string: falsy iff absent or `""`. -/
def jsFalsy : Option String → Bool
  | none => true
  | some s => decide (s = "")

/-- JavaScript `a || b` on two optional strings (`a` when truthy, else `b`). -/
def jsOrS (a b : Option String) : Option String :=
  if jsFalsy a then b else a

/-- How a JavaScript template literal renders an optional string:
`undefined` renders as the text "undefined". -/
def renderOpt : Option String → String
  | none => "undefined"
  | some s => s

/-! ### api.js -/

/-- `api.js fetchDevices`: returns the parsed body, and `[]` from the `catch`
arm on any transport failure (rejected fetch or failing `response.json()`). -/
def fetchDevices (r : FetchOutcome (List Device)) : List Device :=
  match r with
  | .ok ds => ds
  | .netError => []
  | .parseError => []

/-- `api.js fetchLogs`: same shape as `fetchDevices`, `catch` returns `[]`. -/
def fetchLogs (r : FetchOutcome (List LogEntry)) : List LogEntry :=
  match r with
  | .ok ls => ls
  | .netError => []
  | .parseError => []

/-- Parsed body of `POST /api/device/:id/block`. -/
structure ToggleResponse where
  status : String
  isBlocked : Bool
  deriving Repr, DecidableEq

/-- Parsed body of `POST /api/device/:id/nickname`. -/
structure NicknameResponse where
  status : String
  deriving Repr, DecidableEq

/-- `api.js toggleDeviceBlock`: the guard clause returns `undefined` (here
`none`) without issuing a request when `deviceId` is falsy; otherwise the
request is issued, the `catch` arm returns `undefined` on transport failure.
First component: whether a backend request was issued. -/
def toggleDeviceBlock (deviceId : Option String)
    (backend : FetchOutcome ToggleResponse) : Bool × Option ToggleResponse :=
  if jsFalsy deviceId then (false, none)
  else
    match backend with
    | .ok r => (true, some r)
    | .netError => (true, none)
    | .parseError => (true, none)

/-- `api.js updateDeviceNickname`: same falsy-id guard returning `undefined`;
its `catch` arm returns a record with status "error".  First component:
whether a backend request was issued. -/
def updateDeviceNickname (deviceId : Option String) (nickname : String)
    (backend : FetchOutcome NicknameResponse) : Bool × Option NicknameResponse :=
  if jsFalsy deviceId then (false, none)
  else
    match backend with
    | .ok r => (true, some r)
    | .netError => (true, some { status := "error" })
    | .parseError => (true, some { status := "error" })

/-! ### Display names and the QC report (App.jsx) -/

/-- JavaScript `String.prototype.trim`: strip leading and trailing
whitespace, here over the character list of the string. -/
def jsTrim (s : String) : List Char :=
  ((s.data.dropWhile Char.isWhitespace).reverse.dropWhile
      Char.isWhitespace).reverse

/-- `App.jsx isMeaningful`: false on a falsy or missing value, on a trimmed
length of at most 1, and on a trimmed value that is purely digits
(the regular expression `^\d+$`). -/
def isMeaningful : Option String → Bool
  | none => false
  | some val =>
    if val = "" then false
    else
      let trimmed := jsTrim val
      if trimmed.length ≤ 1 then false
      else if trimmed.all Char.isDigit then false
      else true

/-- `App.jsx displayNameFor`: first meaningful of nickname, hostname, vendor,
falling back to the raw ip. -/
def displayNameFor (d : Device) : String :=
  if isMeaningful d.nickname then d.nickname.getD ""
  else if isMeaningful d.hostname then d.hostname.getD ""
  else if isMeaningful d.vendor then d.vendor.getD ""
  else d.ip

/-- The summary block of `generateQCReport`. -/
structure QCSummary where
  total : Nat
  blocked : Nat
  critical : Nat
  deriving Repr, DecidableEq

/-- One data row of `generateQCReport`, split into its comma-separated
fields. -/
structure QCRow where
  name : String
  ip : String
  mac : String
  os : String
  dtype : String
  risk : String
  ports : Nat
  latency : String
  status : String
  deriving Repr, DecidableEq

/-- Status column: `BLOCKED` if blocked, else `VULNERABLE` above risk 20,
else `SECURE`. -/
def qcStatus (d : Device) : String :=
  if d.isBlocked || d.is_blocked then "BLOCKED"
  else if d.risk_score > 20 then "VULNERABLE"
  else "SECURE"

/-- Latency column: `d.latency ? latency + "ms" : "N/A"` (0 is falsy). -/
def qcLatency (lat : Option Nat) : String :=
  match lat with
  | some l => if l = 0 then "N/A" else toString l ++ "ms"
  | none => "N/A"

/-- One row of `generateQCReport`: note the name column is the template
`d.vendor || d.name`, not `displayNameFor`. -/
def qcRow (d : Device) : QCRow :=
  { name := renderOpt (jsOrS d.vendor d.name)
  , ip := d.ip
  , mac := d.mac
  , os := renderOpt (jsOrS d.os_type (some "Unknown"))
  , dtype := renderOpt (jsOrS d.device_type (some "unknown"))
  , risk := toString d.risk_score ++ "%"
  , ports := d.open_ports.getD 0
  , latency := qcLatency d.latency
  , status := qcStatus d }

/-- The whole report artifact: summary block plus one row per device. -/
structure QCReport where
  summary : QCSummary
  rows : List QCRow
  deriving Repr, DecidableEq

/-- `App.jsx generateQCReport` (content part; the surrounding CSV download
plumbing is presentation).  Counts blocked devices via
`d.isBlocked || d.is_blocked` and critical ones via `d.risk_score > 50`. -/
def generateQCReport (devices : List Device) : QCReport :=
  { summary :=
      { total := devices.length
      , blocked := (devices.filter (fun d => d.isBlocked || d.is_blocked)).length
      , critical := (devices.filter (fun d => decide (d.risk_score > 50))).length }
  , rows := devices.map qcRow }

/-- A device with every optional field absent, used as a base for concrete
examples. -/
def baseDevice : Device :=
  { mac := "00:00:00:00:00:00"
  , ip := "0.0.0.0"
  , hostname := none
  , vendor := none
  , nickname := none
  , name := none
  , os_type := none
  , device_type := none
  , risk_score := 0
  , open_ports := none
  , latency := none
  , isBlocked := false
  , is_blocked := false
  , harmful := false }

/-! ### App state and the mutation handlers (App.jsx) -/

/-- The React state hooks of `App` that the handlers touch. -/
structure AppState where
  devices : List Device
  logs : List LogEntry
  loading : Bool
  processingId : Option String
  panicProcessing : Bool
  unlockProcessing : Bool
  selectedDevice : Option Device
  deriving Repr, DecidableEq

/-- The `setDevices` updater inside `handleToggleBlock`: map over the list,
setting `isBlocked` to the server-returned value on the matching `mac`. -/
def applyBlockResult (devices : List Device) (mac : String) (b : Bool) :
    List Device :=
  devices.map (fun d => if d.mac = mac then { d with isBlocked := b } else d)

/-- `App.jsx handleToggleBlock`: sets `processingId`, calls
`toggleDeviceBlock`, and only when the result exists with status "success"
updates the device list, the selected device, and re-fetches the logs;
finally clears `processingId`.  There is no guard against a `mac` already in
flight.  Second component: whether a backend toggle request was issued. -/
def handleToggleBlock (s : AppState) (mac : String)
    (toggleResp : FetchOutcome ToggleResponse)
    (logsResp : FetchOutcome (List LogEntry)) : AppState × Bool :=
  let s1 := { s with processingId := some mac }
  let res := toggleDeviceBlock (some mac) toggleResp
  let s2 :=
    match res.2 with
    | some r =>
      if r.status = "success" then
        let devs := applyBlockResult s1.devices mac r.isBlocked
        let sel :=
          match s1.selectedDevice with
          | some sd =>
            if sd.mac = mac then some { sd with isBlocked := r.isBlocked }
            else some sd
          | none => none
        { s1 with devices := devs, selectedDevice := sel,
                  logs := fetchLogs logsResp }
      else s1
    | none => s1
  ({ s2 with processingId := none }, res.1)

/-- Parsed body of the panic / panic-unlock endpoints. -/
structure PanicResponse where
  status : String
  message : Option String
  deriving Repr, DecidableEq

/-- `api.js triggerPanicMode`: its `catch` arm returns an empty array, a
truthy value with no `status` field; we model that arm as `none` since the
caller only reads `.status` from it (which is then not "success"). -/
def triggerPanicMode (r : FetchOutcome PanicResponse) : Option PanicResponse :=
  match r with
  | .ok resp => some resp
  | .netError => none
  | .parseError => none

/-- `api.js triggerUnlockPanicControl`: its `catch` arm returns a record with
status "error". -/
def triggerUnlockPanicControl (r : FetchOutcome PanicResponse) :
    Option PanicResponse :=
  match r with
  | .ok resp => some resp
  | .netError => some { status := "error", message := none }
  | .parseError => some { status := "error", message := none }

/-- The `res && res.status === "success"` test of the panic handlers. -/
def panicResSuccess : Option PanicResponse → Bool
  | some r => decide (r.status = "success")
  | none => false

/-- `App.jsx handlePanic`: rejected immediately when `panicProcessing` is
already set; otherwise issues the panic request and, on success, re-fetches
the logs; `finally` clears the flag.  It does not consult
`unlockProcessing`.  Second component: whether a backend request was
issued. -/
def handlePanic (s : AppState) (r : FetchOutcome PanicResponse)
    (logsResp : FetchOutcome (List LogEntry)) : AppState × Bool :=
  if s.panicProcessing then (s, false)
  else
    let res := triggerPanicMode r
    let s1 :=
      if panicResSuccess res then { s with logs := fetchLogs logsResp } else s
    ({ s1 with panicProcessing := false }, true)

/-- `App.jsx handleUnlockPanic`: symmetric to `handlePanic`, guarded only by
`unlockProcessing`. -/
def handleUnlockPanic (s : AppState) (r : FetchOutcome PanicResponse)
    (logsResp : FetchOutcome (List LogEntry)) : AppState × Bool :=
  if s.unlockProcessing then (s, false)
  else
    let res := triggerUnlockPanicControl r
    let s1 :=
      if panicResSuccess res then { s with logs := fetchLogs logsResp } else s
    ({ s1 with unlockProcessing := false }, true)

/-! ### The scan lifecycle (App.jsx handleScan) -/

/-- The synchronous prefix of `App.jsx handleScan`: it unconditionally sets
`loading` and issues the begin-scan request (`triggerScan`), then installs
the poll interval and the two-minute timeout (modelled by
`runScanSession`).  There is no guard inside the function.  Second
component: how many begin-scan requests this call issues. -/
def handleScan (s : AppState) : AppState × Nat :=
  ({ s with loading := true }, 1)

/-- The scan button in the header carries `disabled={loading}`: a click while
`loading` is set runs no handler at all; otherwise it runs `handleScan`. -/
def clickScan (s : AppState) : AppState × Nat :=
  if s.loading then (s, 0) else handleScan s

/-- Timer state of one scan session: whether the 1-second poll interval is
still installed, the `loading` flag, how many times `loadData` (one
inventory + log refresh) ran, and how many begin-scan requests were sent. -/
structure ScanSim where
  pollActive : Bool
  loading : Bool
  refreshes : Nat
  beginScans : Nat
  deriving Repr, DecidableEq

/-- One tick of the poll interval: if still installed and `getScanStatus`
reports `is_scanning = false`, clear the interval, refresh once and drop
`loading`; a tick after `clearInterval` does nothing. -/
def pollTick (is_scanning : Bool) (st : ScanSim) : ScanSim :=
  if st.pollActive then
    if is_scanning then st
    else { st with pollActive := false, loading := false,
                   refreshes := st.refreshes + 1 }
  else st

/-- The two-minute `setTimeout` callback: clears the interval, drops
`loading` and refreshes — it is never cancelled, so it runs in every
session, after a normal completion as well. -/
def timeoutFire (st : ScanSim) : ScanSim :=
  { st with pollActive := false, loading := false,
            refreshes := st.refreshes + 1 }

/-- Run the poll interval over a list of `is_scanning` statuses. -/
def runPolls : List Bool → ScanSim → ScanSim
  | [], st => st
  | b :: rest, st => runPolls rest (pollTick b st)

/-- State right after `handleScan` starts a session: interval installed,
`loading` set, no refresh yet, one begin-scan request sent. -/
def scanInit : ScanSim :=
  { pollActive := true, loading := true, refreshes := 0, beginScans := 1 }

/-- One whole scan session as `handleScan` wires it: 120 poll ticks (one per
second within the two-minute window, tick `t` observing `stat t`) followed
by the uncancelled timeout callback. -/
def runScanSession (stat : Nat → Bool) : ScanSim :=
  timeoutFire (runPolls ((List.range 120).map (fun t => stat (t + 1))) scanInit)

/-! ### The auto-scan polling loop (App.jsx useEffect on autoScanEnabled) -/

/-- State of the 15-second polling loop the auto-scan effect installs:
`captured` is the `devices` value closed over when the effect ran,
`lastCount` the mutable `lastDeviceCount`, and `devices`/`logs` the store
contents. -/
structure PollLoop where
  captured : List Device
  lastCount : Nat
  devices : List Device
  logs : List LogEntry
  deriving Repr, DecidableEq

/-- Installing the loop: the closure captures the store as it is now. -/
def startPollLoop (devices : List Device) (logs : List LogEntry) : PollLoop :=
  { captured := devices, lastCount := devices.length,
    devices := devices, logs := logs }

/-- One tick of the loop: fetches both snapshots and applies both iff the
fetched device list length differs from `lastDeviceCount` or its content
differs from the captured `devices` closure value (the `JSON.stringify`
comparison); fetched logs are never part of the condition. -/
def pollLoopTick (st : PollLoop) (fetchedDevices : List Device)
    (fetchedLogs : List LogEntry) : PollLoop :=
  if fetchedDevices.length ≠ st.lastCount ∨ fetchedDevices ≠ st.captured then
    { st with devices := fetchedDevices, logs := fetchedLogs,
              lastCount := fetchedDevices.length }
  else st

/-! ### Concrete fixtures for counterexamples and witnesses -/

/-- A device with mac "AA", unblocked. -/
def devAA : Device := { baseDevice with mac := "AA", ip := "10.0.0.1" }

/-- A second device with mac "BB". -/
def devBB : Device := { baseDevice with mac := "BB", ip := "10.0.0.2" }

/-- A first log entry. -/
def logE1 : LogEntry := { id := 1, time := "t1", event := "e1", type := "info" }

/-- A second log entry. -/
def logE2 : LogEntry := { id := 2, time := "t2", event := "e2", type := "info" }

/-- An idle app state holding one device and one log entry. -/
def exampleState : AppState :=
  { devices := [devAA], logs := [logE1], loading := false,
    processingId := none, panicProcessing := false,
    unlockProcessing := false, selectedDevice := none }

/-- Ten devices: two carry a blocked flag, one has risk score 75, the rest
are unblocked with low risk. -/
def scenarioDevices : List Device :=
  [ { baseDevice with mac := "01", is_blocked := true }
  , { baseDevice with mac := "02", isBlocked := true }
  , { baseDevice with mac := "03", risk_score := 75 }
  , { baseDevice with mac := "04" }
  , { baseDevice with mac := "05" }
  , { baseDevice with mac := "06" }
  , { baseDevice with mac := "07" }
  , { baseDevice with mac := "08" }
  , { baseDevice with mac := "09" }
  , { baseDevice with mac := "10" } ]

/-! ### Claim theorems -/

/-- C6: any transport-level failure (unreachable backend or unparseable
response) of `fetchDevices` or `fetchLogs` yields an empty snapshot; being
total Lean functions, they propagate no exception to the caller. -/
theorem fetch_failure_empty (r : FetchOutcome (List Device))
    (r2 : FetchOutcome (List LogEntry))
    (h1 : r.isFailure = true) (h2 : r2.isFailure = true) :
    fetchDevices r = [] ∧ fetchLogs r2 = [] := by
  cases r <;> cases r2 <;>
    simp_all [fetchDevices, fetchLogs, FetchOutcome.isFailure]

theorem fetch_failure_empty_witness :
    fetchDevices FetchOutcome.netError = []
    ∧ fetchLogs FetchOutcome.parseError = [] :=
  fetch_failure_empty FetchOutcome.netError FetchOutcome.parseError rfl rfl

/-- C10: calling `toggleDeviceBlock` or `updateDeviceNickname` with a falsy
device identifier (absent, null or the empty string) issues no backend
request and returns `undefined`; no state is touched (the functions read and
write nothing else). -/
theorem falsy_id_no_request (deviceId : Option String) (nickname : String)
    (b1 : FetchOutcome ToggleResponse) (b2 : FetchOutcome NicknameResponse)
    (h : jsFalsy deviceId = true) :
    toggleDeviceBlock deviceId b1 = (false, none)
    ∧ updateDeviceNickname deviceId nickname b2 = (false, none) := by
  constructor <;> simp [toggleDeviceBlock, updateDeviceNickname, h]

theorem falsy_id_no_request_witness :
    toggleDeviceBlock none FetchOutcome.netError = (false, none)
    ∧ updateDeviceNickname none "tv" FetchOutcome.netError = (false, none) :=
  falsy_id_no_request none "tv" FetchOutcome.netError FetchOutcome.netError rfl

/-- C7 counterexample: for a device whose nickname "TV" is meaningful and
whose vendor is "AcmeCorp", the claim says the report row's display-name
field is "TV" (nickname first); the code's report row name is the template
`vendor || name`, giving "AcmeCorp". -/
theorem qcRow_name_ignores_nickname :
    displayNameFor
        { baseDevice with nickname := some "TV", vendor := some "AcmeCorp" }
      = "TV"
    ∧ (qcRow
        { baseDevice with nickname := some "TV", vendor := some "AcmeCorp" }).name
      = "AcmeCorp" := by
  constructor <;> rfl

/-- C7 amended: the nickname → hostname → vendor → raw-IP priority with the
meaningfulness rule governs the UI display name (`displayNameFor`), for
which the claim's three scenarios hold; the Report Generator's row name
field is instead the JavaScript template `d.vendor || d.name`. -/
theorem report_name_is_vendor_or_name :
    (∀ ds : List Device,
      (generateQCReport ds).rows.map QCRow.name
        = ds.map (fun d => renderOpt (jsOrS d.vendor d.name)))
    ∧ displayNameFor { baseDevice with nickname := some "TV" } = "TV"
    ∧ displayNameFor
        { baseDevice with nickname := some "", hostname := some "router1" }
      = "router1"
    ∧ displayNameFor
        { baseDevice with ip := "192.168.1.5", nickname := some "",
                          hostname := some "12345", vendor := some "" }
      = "192.168.1.5" := by
  refine ⟨?_, rfl, rfl, rfl⟩
  intro ds
  simp [generateQCReport, qcRow, List.map_map]

/-- C8: the report summary counts the list length, the devices whose blocked
flag (`isBlocked` or `is_blocked`) is set, and those with risk score
strictly above 50; the claim's 10-device scenario yields totals 10, 2, 1. -/
theorem generateQCReport_summary_counts :
    (∀ ds : List Device,
      (generateQCReport ds).summary.total = ds.length
      ∧ (generateQCReport ds).summary.blocked
          = ds.countP (fun d => d.isBlocked || d.is_blocked)
      ∧ (generateQCReport ds).summary.critical
          = ds.countP (fun d => decide (d.risk_score > 50)))
    ∧ (generateQCReport scenarioDevices).summary
        = { total := 10, blocked := 2, critical := 1 } := by
  constructor
  · intro ds
    refine ⟨rfl, ?_, ?_⟩ <;> simp [generateQCReport, List.countP_eq_length_filter]
  · decide

/-- An app state with a scan session active (`loading` set). -/
def scanningState : AppState := { exampleState with loading := true }

/-- An app state with the toggle for mac "AA" marked in flight. -/
def lockedState : AppState := { exampleState with processingId := some "AA" }

/-- An app state with a bulk panic request outstanding. -/
def panicBusyState : AppState := { exampleState with panicProcessing := true }

/-- Ticks fired after the poll interval was cleared change nothing. -/
theorem runPolls_inactive (l : List Bool) (st : ScanSim)
    (h : st.pollActive = false) : runPolls l st = st := by
  induction l with
  | nil => rfl
  | cons b rest ih => simp [runPolls, pollTick, h, ih]

/-- Running the poll interval from an installed state: unchanged while every
status still reports scanning, otherwise cleared with one refresh. -/
theorem runPolls_active (l : List Bool) (st : ScanSim)
    (h : st.pollActive = true) :
    runPolls l st =
      if l.all (fun b => b) then st
      else { st with pollActive := false, loading := false,
                     refreshes := st.refreshes + 1 } := by
  induction l generalizing st with
  | nil => simp [runPolls]
  | cons b rest ih =>
    cases b with
    | false => simp [runPolls, pollTick, h, runPolls_inactive]
    | true => simp [runPolls, pollTick, h, ih st h]

/-- C1 counterexample: `handleScan` carries no internal guard — invoked
while a session is already active (`loading` set), it still issues a
begin-scan request, where the claim requires that none be issued. -/
theorem handleScan_reentry_requests_again :
    scanningState.loading = true ∧ (handleScan scanningState).2 = 1 := by
  constructor <;> rfl

/-- C1 amended: the no-op guard lives on the scan button, which carries
`disabled={loading}`: a click during an active session leaves the state
unchanged and issues no begin-scan request; `handleScan` itself, called
directly, is unguarded. -/
theorem clickScan_noop_when_loading (s : AppState) (h : s.loading = true) :
    clickScan s = (s, 0) := by
  simp [clickScan, h]

theorem clickScan_noop_when_loading_witness :
    clickScan scanningState = (scanningState, 0) :=
  clickScan_noop_when_loading scanningState rfl

set_option maxRecDepth 4000 in
/-- C3 counterexample: a session whose very first poll reports the scan
finished performs its terminal refresh and then a second refresh when the
never-cancelled two-minute timeout fires — two refreshes, where the claim
requires exactly one. -/
theorem completed_scan_refreshes_twice :
    (runScanSession (fun _ => false)).refreshes = 2 := by
  decide

/-- C3 amended: every scan session reaches a terminal state (`loading` and
the interval cleared) having issued exactly one begin-scan request; it
refreshes exactly once when polling never observes completion within the
120-tick ceiling, and twice when it completes normally — once at the
terminal transition and once more when the uncancelled two-minute timeout
fires.  No refresh happens on a mid-poll tick that still reports
scanning. -/
theorem scanSession_refresh_count (stat : Nat → Bool) :
    (runScanSession stat).loading = false
    ∧ (runScanSession stat).pollActive = false
    ∧ (runScanSession stat).beginScans = 1
    ∧ (runScanSession stat).refreshes =
        (if ((List.range 120).map (fun t => stat (t + 1))).all (fun b => b)
         then 1 else 2) := by
  unfold runScanSession
  rw [runPolls_active _ scanInit rfl]
  by_cases hall :
      ((List.range 120).map (fun t => stat (t + 1))).all (fun b => b)
  · simp [hall, timeoutFire, scanInit]
  · simp [hall, timeoutFire, scanInit]

/-- Whether the toggle round trip produced a parsed body with status
"success" (transport failures produce no body). -/
def toggleSuccess : FetchOutcome ToggleResponse → Bool
  | .ok r => decide (r.status = "success")
  | .netError => false
  | .parseError => false

/-- The server-returned `isBlocked` value of a toggle response. -/
def serverBlocked : FetchOutcome ToggleResponse → Bool
  | .ok r => r.isBlocked
  | .netError => false
  | .parseError => false

/-- C2: confirm-then-apply.  On a confirmed success response the device
store gets the server-returned `isBlocked` value for that mac and the log
store is re-fetched; on any non-success response or transport failure the
device store, log store and selected device are left unchanged. -/
theorem handleToggleBlock_confirm_then_apply (s : AppState) (mac : String)
    (tr : FetchOutcome ToggleResponse) (lr : FetchOutcome (List LogEntry))
    (hmac : mac ≠ "") :
    (toggleSuccess tr = true →
        (handleToggleBlock s mac tr lr).1.devices
          = applyBlockResult s.devices mac (serverBlocked tr)
        ∧ (handleToggleBlock s mac tr lr).1.logs = fetchLogs lr)
    ∧ (toggleSuccess tr = false →
        (handleToggleBlock s mac tr lr).1.devices = s.devices
        ∧ (handleToggleBlock s mac tr lr).1.logs = s.logs
        ∧ (handleToggleBlock s mac tr lr).1.selectedDevice
            = s.selectedDevice) := by
  cases tr with
  | netError =>
    simp [handleToggleBlock, toggleDeviceBlock, jsFalsy, hmac, toggleSuccess]
  | parseError =>
    simp [handleToggleBlock, toggleDeviceBlock, jsFalsy, hmac, toggleSuccess]
  | ok r =>
    by_cases hs : r.status = "success" <;>
      simp [handleToggleBlock, toggleDeviceBlock, jsFalsy, hmac,
            toggleSuccess, serverBlocked, hs]

theorem handleToggleBlock_confirm_then_apply_witness :
    (handleToggleBlock exampleState "AA"
        (FetchOutcome.ok { status := "success", isBlocked := true })
        (FetchOutcome.ok [logE2])).1.devices
      = applyBlockResult exampleState.devices "AA"
          (serverBlocked
            (FetchOutcome.ok { status := "success", isBlocked := true }))
    ∧ (handleToggleBlock exampleState "AA"
        (FetchOutcome.ok { status := "success", isBlocked := true })
        (FetchOutcome.ok [logE2])).1.logs
      = fetchLogs (FetchOutcome.ok [logE2]) :=
  (handleToggleBlock_confirm_then_apply exampleState "AA"
      (FetchOutcome.ok { status := "success", isBlocked := true })
      (FetchOutcome.ok [logE2]) (by decide)).1 rfl

/-- C4 counterexample: with the toggle for mac "AA" already marked in flight
(`processingId = some "AA"`), a second `handleToggleBlock` call for "AA" is
not rejected: it issues a backend request and applies the result to the
store. -/
theorem toggle_locked_mac_still_requests :
    lockedState.processingId = some "AA"
    ∧ (handleToggleBlock lockedState "AA"
        (FetchOutcome.ok { status := "success", isBlocked := true })
        (FetchOutcome.ok [logE2])).2 = true
    ∧ (handleToggleBlock lockedState "AA"
        (FetchOutcome.ok { status := "success", isBlocked := true })
        (FetchOutcome.ok [logE2])).1.devices ≠ lockedState.devices := by
  refine ⟨rfl, rfl, ?_⟩
  decide

/-- C4 amended: `handleToggleBlock` holds no per-mac mutation lock: whatever
`processingId` currently is, a call with a non-empty mac always issues a
backend request; the in-flight marker is display state only and is simply
overwritten. -/
theorem handleToggleBlock_always_requests (s : AppState) (mac : String)
    (tr : FetchOutcome ToggleResponse) (lr : FetchOutcome (List LogEntry))
    (hmac : mac ≠ "") :
    (handleToggleBlock s mac tr lr).2 = true := by
  cases tr <;> simp [handleToggleBlock, toggleDeviceBlock, jsFalsy, hmac]

theorem handleToggleBlock_always_requests_witness :
    (handleToggleBlock lockedState "AA" FetchOutcome.netError
        (FetchOutcome.ok [])).2 = true :=
  handleToggleBlock_always_requests lockedState "AA" FetchOutcome.netError
    (FetchOutcome.ok []) (by decide)

/-- C5 counterexample: with a bulk panic request outstanding
(`panicProcessing = true`), invoking the bulk unlock operation is not
rejected — it still issues a backend request, where the claim requires that
either bulk operation be rejected. -/
theorem unlock_during_panic_still_requests :
    panicBusyState.panicProcessing = true
    ∧ (handleUnlockPanic panicBusyState
        (FetchOutcome.ok { status := "success", message := none })
        (FetchOutcome.ok [logE2])).2 = true := by
  constructor <;> rfl

/-- C5 amended: each bulk operation is guarded only against itself: a panic
while `panicProcessing` is set, and an unlock while `unlockProcessing` is
set, are rejected with no request issued and no state change; the two flags
are independent, so a panic and an unlock may be in flight
simultaneously. -/
theorem bulk_guard_per_operation (s : AppState)
    (r : FetchOutcome PanicResponse) (lr : FetchOutcome (List LogEntry)) :
    (s.panicProcessing = true → handlePanic s r lr = (s, false))
    ∧ (s.unlockProcessing = true → handleUnlockPanic s r lr = (s, false)) := by
  constructor <;> intro h <;> simp [handlePanic, handleUnlockPanic, h]

/-- C9 counterexample: after the loop applied one update, a tick whose
fetched device list equals the stale captured snapshot but differs from the
currently held store applies nothing — refuting "applied iff the fetched
content differs from the currently held store content". -/
theorem pollLoop_stale_comparison :
    (pollLoopTick (startPollLoop [devAA] [logE1]) [devBB] [logE2]).devices
      = [devBB]
    ∧ pollLoopTick (pollLoopTick (startPollLoop [devAA] [logE1]) [devBB]
          [logE2]) [devAA] [logE1]
      = pollLoopTick (startPollLoop [devAA] [logE1]) [devBB] [logE2]
    ∧ [devAA]
      ≠ (pollLoopTick (startPollLoop [devAA] [logE1]) [devBB] [logE2]).devices
    := by
  refine ⟨?_, ?_, ?_⟩ <;> decide

/-- C9 amended: a tick compares the fetched device list against the
loop-start closure snapshot and the last applied count, never against the
live store and never against fetched logs; on the first tick after the loop
starts this coincides with the claim for the device snapshot: both stores
are replaced iff the fetched device list differs from the held one (full
content comparison). -/
theorem pollLoop_first_tick (ds : List Device) (ls : List LogEntry)
    (fd : List Device) (fl : List LogEntry) :
    (fd = ds → pollLoopTick (startPollLoop ds ls) fd fl = startPollLoop ds ls)
    ∧ (fd ≠ ds →
        (pollLoopTick (startPollLoop ds ls) fd fl).devices = fd
        ∧ (pollLoopTick (startPollLoop ds ls) fd fl).logs = fl) := by
  constructor
  · intro h; subst h; simp [pollLoopTick, startPollLoop]
  · intro h; simp [pollLoopTick, startPollLoop, h]
